import Mathlib

set_option maxHeartbeats 1000000

/-!
Shallow embedding of the Autoware emergency handler core
(src/system/emergency_handler/src/emergency_handler/emergency_handler_core.cpp).

The node state is embedded as a record of the member fields that the tick
logic reads and writes; observable side effects (service requests to the MRM
behavior controllers, topic publications, warning logs) are recorded as an
event trace.  Times and velocities are modelled as rationals.  Enumeration
fields are kept as raw naturals, exactly as the C++ stores them as message
integers, so that out-of-range values can be discussed.
-/

namespace EmergencyHandler

/-- Modelled from the spec: hazard severity constants of the fault report
message (autoware_auto_system_msgs/HazardStatus), an external interface;
the spec gives the ordering NO_FAULT < SAFE_FAULT < LATENT_FAULT <
SINGLE_POINT_FAULT. -/
def HazardStatus_NO_FAULT : Nat := 0

def HazardStatus_SAFE_FAULT : Nat := 1

def HazardStatus_LATENT_FAULT : Nat := 2

def HazardStatus_SINGLE_POINT_FAULT : Nat := 3

/-- Modelled from the spec: state constants of the MrmState message
(autoware_adapi_v1_msgs/MrmState), an external interface; the four states
are distinct and distinct from the message default 0. -/
def MrmState_NORMAL : Nat := 1

def MrmState_MRM_OPERATING : Nat := 2

def MrmState_MRM_SUCCEEDED : Nat := 3

def MrmState_MRM_FAILED : Nat := 4

/-- Modelled from the spec: behavior constants of the MrmState message,
an external interface; the three behaviors are distinct. -/
def MrmState_NONE : Nat := 1

def MrmState_EMERGENCY_STOP : Nat := 2

def MrmState_COMFORTABLE_STOP : Nat := 3

/-- Modelled from the spec: availability constants of the backup-controller
status message (tier4_system_msgs/MrmBehaviorStatus), an external interface;
NOT_AVAILABLE is the value a default-constructed status message holds, so a
status that was never received reads as NOT_AVAILABLE. -/
def MrmBehaviorStatus_NOT_AVAILABLE : Nat := 0

def MrmBehaviorStatus_AVAILABLE : Nat := 1

/-- Modelled from the spec: the AUTONOMOUS constant of the control mode
report message, an external interface; distinct from the message default 0. -/
def ControlModeReport_AUTONOMOUS : Nat := 1

/-- Modelled from the spec: hazard lights command constants, an external
interface. -/
def HazardLightsCommand_NO_COMMAND : Nat := 0

def HazardLightsCommand_ENABLE : Nat := 2

/-- Modelled from the spec: gear command constants, an external interface. -/
def GearCommand_DRIVE : Nat := 2

def GearCommand_PARK : Nat := 22

/-- Node parameters, immutable after startup (declared in the constructor). -/
structure Params where
  timeout_hazard_status : ℚ
  use_parking_after_stopped : Bool
  use_comfortable_stop : Bool
  turning_hazard_on_emergency : Bool
  deriving DecidableEq

/-- The fields of the hazard status report that the handler reads. -/
structure HazardStatusMsg where
  level : Nat
  emergency : Bool
  emergency_holding : Bool
  deriving DecidableEq

/-- The member fields of the EmergencyHandler node that the tick logic
reads and writes.  hazard_status_stamped is an Option because the C++
member is a null pointer until the first message arrives. -/
structure EHState where
  hazard_status_stamped : Option HazardStatusMsg
  stamp_hazard_status : ℚ
  odom_linear_x : ℚ
  control_mode : Nat
  mrm_comfortable_stop_status : Nat
  mrm_emergency_stop_status : Nat
  mrm_state_state : Nat
  mrm_state_behavior : Nat
  is_hazard_status_timeout : Bool
  deriving DecidableEq

/-- Observable side effects of one tick: MRM operate service requests
(operate = true for a call, false for a cancel), topic publications, and
warning logs. -/
inductive Event where
  | mrmRequest (behavior : Nat) (operate : Bool)
  | pubHazardCmd (command : Nat)
  | pubGearCmd (command : Nat)
  | pubMrmState (state : Nat) (behavior : Nat)
  | logWarn (message : String)
  deriving DecidableEq

/-- The node state right after the constructor ran: no hazard status
received yet, other message snapshots default-constructed, MRM state
NORMAL with behavior NONE, timeout flag cleared. -/
def initState : EHState :=
  { hazard_status_stamped := none
    stamp_hazard_status := 0
    odom_linear_x := 0
    control_mode := 0
    mrm_comfortable_stop_status := MrmBehaviorStatus_NOT_AVAILABLE
    mrm_emergency_stop_status := MrmBehaviorStatus_NOT_AVAILABLE
    mrm_state_state := MrmState_NORMAL
    mrm_state_behavior := MrmState_NONE
    is_hazard_status_timeout := false }

/-- EmergencyHandler::isEmergency, with the dereferenced hazard status
passed explicitly. -/
def isEmergency (h : HazardStatusMsg) (st : EHState) : Bool :=
  h.emergency || h.emergency_holding || st.is_hazard_status_timeout

/-- EmergencyHandler::isStopped: true iff longitudinal velocity is strictly
below the 0.001 m/s threshold. -/
def isStopped (st : EHState) : Bool :=
  if st.odom_linear_x < (1 : ℚ) / 1000 then true else false

/-- EmergencyHandler::isDataReady: false while no hazard status was
received, while comfortable stop is enabled but its controller status reads
NOT_AVAILABLE, or while the emergency stop controller status reads
NOT_AVAILABLE. -/
def isDataReady (p : Params) (st : EHState) : Bool :=
  match st.hazard_status_stamped with
  | none => false
  | some _ =>
    if p.use_comfortable_stop = true ∧
        st.mrm_comfortable_stop_status = MrmBehaviorStatus_NOT_AVAILABLE then
      false
    else if st.mrm_emergency_stop_status = MrmBehaviorStatus_NOT_AVAILABLE then
      false
    else
      true

/-- EmergencyHandler::checkHazardStatusTimeout: recompute the staleness
flag from the age of the last hazard status. -/
def checkHazardStatusTimeout (p : Params) (now : ℚ) (st : EHState) : EHState :=
  if now - st.stamp_hazard_status > p.timeout_hazard_status then
    { st with is_hazard_status_timeout := true }
  else
    { st with is_hazard_status_timeout := false }

/-- The state2string helper inside EmergencyHandler::transitionTo: throws
on any value outside the four declared states. -/
def state2string (state : Nat) : Except String String :=
  if state = MrmState_NORMAL then Except.ok ("NORMAL")
  else if state = MrmState_MRM_OPERATING then Except.ok ("MRM_OPERATING")
  else if state = MrmState_MRM_SUCCEEDED then Except.ok ("MRM_SUCCEEDED")
  else if state = MrmState_MRM_FAILED then Except.ok ("MRM_FAILED")
  else Except.error ("invalid state: " ++ toString state)

/-- EmergencyHandler::transitionTo: the debug log renders both the old and
the new state through state2string, so either being invalid throws; then
the state field is assigned. -/
def transitionTo (new_state : Nat) (st : EHState) : Except String EHState :=
  match state2string st.mrm_state_state with
  | Except.error e => Except.error e
  | Except.ok _ =>
    match state2string new_state with
    | Except.error e => Except.error e
    | Except.ok _ => Except.ok { st with mrm_state_state := new_state }

/-- EmergencyHandler::updateMrmState: the MRM state machine, run once per
tick after the readiness gate. -/
def updateMrmState (h : HazardStatusMsg) (st : EHState) : Except String EHState :=
  if st.mrm_state_state = MrmState_NORMAL then
    if st.control_mode = ControlModeReport_AUTONOMOUS ∧ isEmergency h st = true then
      transitionTo MrmState_MRM_OPERATING st
    else
      Except.ok st
  else
    if isEmergency h st = false then
      transitionTo MrmState_NORMAL st
    else if st.mrm_state_state = MrmState_MRM_OPERATING then
      if isStopped st = true then
        transitionTo MrmState_MRM_SUCCEEDED st
      else
        Except.ok st
    else if st.mrm_state_state = MrmState_MRM_SUCCEEDED then
      Except.ok st
    else if st.mrm_state_state = MrmState_MRM_FAILED then
      Except.ok st
    else
      Except.error ("invalid state: " ++ toString st.mrm_state_state)

/-- EmergencyHandler::getCurrentMrmBehavior: behavior arbitration from the
current behavior and the effective hazard level (forced to
SINGLE_POINT_FAULT while the heartbeat is stale). -/
def getCurrentMrmBehavior (p : Params) (h : HazardStatusMsg) (st : EHState) : Nat :=
  let level :=
    if st.is_hazard_status_timeout = true then HazardStatus_SINGLE_POINT_FAULT
    else h.level
  if st.mrm_state_behavior = MrmState_NONE then
    if level = HazardStatus_LATENT_FAULT then
      if p.use_comfortable_stop = true then MrmState_COMFORTABLE_STOP
      else MrmState_EMERGENCY_STOP
    else if level = HazardStatus_SINGLE_POINT_FAULT then
      MrmState_EMERGENCY_STOP
    else
      st.mrm_state_behavior
  else if st.mrm_state_behavior = MrmState_COMFORTABLE_STOP then
    if level = HazardStatus_SINGLE_POINT_FAULT then
      MrmState_EMERGENCY_STOP
    else
      st.mrm_state_behavior
  else
    st.mrm_state_behavior

/-- EmergencyHandler::callMrmBehavior: NONE is logged and not sent, the two
real behaviors produce an operate = true service request, anything else is
logged as invalid and ignored. -/
def callMrmBehavior (b : Nat) : List Event :=
  if b = MrmState_NONE then
    [Event.logWarn ("MRM behavior is None. Do nothing.")]
  else if b = MrmState_COMFORTABLE_STOP then
    [Event.mrmRequest MrmState_COMFORTABLE_STOP true]
  else if b = MrmState_EMERGENCY_STOP then
    [Event.mrmRequest MrmState_EMERGENCY_STOP true]
  else
    [Event.logWarn ("invalid MRM behavior: " ++ toString b)]

/-- EmergencyHandler::cancelMrmBehavior: NONE does nothing, the two real
behaviors produce an operate = false service request, anything else is
logged as invalid and ignored. -/
def cancelMrmBehavior (b : Nat) : List Event :=
  if b = MrmState_NONE then
    []
  else if b = MrmState_COMFORTABLE_STOP then
    [Event.mrmRequest MrmState_COMFORTABLE_STOP false]
  else if b = MrmState_EMERGENCY_STOP then
    [Event.mrmRequest MrmState_EMERGENCY_STOP false]
  else
    [Event.logWarn ("invalid MRM behavior: " ++ toString b)]

/-- EmergencyHandler::operateMrm: in NORMAL cancel any active behavior and
reset it to NONE; in MRM_OPERATING recompute the behavior and, on change,
cancel the old one, call the new one, then commit it; in MRM_SUCCEEDED and
MRM_FAILED do nothing; on any other state value log a warning and
continue. -/
def operateMrm (p : Params) (h : HazardStatusMsg) (st : EHState) : EHState × List Event :=
  if st.mrm_state_state = MrmState_NORMAL then
    let current_mrm_behavior := MrmState_NONE
    if ¬ current_mrm_behavior = st.mrm_state_behavior then
      ({ st with mrm_state_behavior := current_mrm_behavior },
        cancelMrmBehavior st.mrm_state_behavior)
    else
      (st, [])
  else if st.mrm_state_state = MrmState_MRM_OPERATING then
    let current_mrm_behavior := getCurrentMrmBehavior p h st
    if ¬ current_mrm_behavior = st.mrm_state_behavior then
      ({ st with mrm_state_behavior := current_mrm_behavior },
        cancelMrmBehavior st.mrm_state_behavior ++ callMrmBehavior current_mrm_behavior)
    else
      (st, [])
  else if st.mrm_state_state = MrmState_MRM_SUCCEEDED then
    (st, [])
  else if st.mrm_state_state = MrmState_MRM_FAILED then
    (st, [])
  else
    (st, [Event.logWarn ("invalid MRM state: " ++ toString st.mrm_state_state)])

/-- EmergencyHandler::createHazardCmdMsg: ENABLE during emergency holding,
ENABLE when emergency and the hazard-on-emergency parameter is set,
NO_COMMAND otherwise. -/
def createHazardCmdMsg (p : Params) (h : HazardStatusMsg) (st : EHState) : Nat :=
  let is_emergency := isEmergency h st
  if h.emergency_holding = true then
    HazardLightsCommand_ENABLE
  else if is_emergency = true ∧ p.turning_hazard_on_emergency = true then
    HazardLightsCommand_ENABLE
  else
    HazardLightsCommand_NO_COMMAND

/-- EmergencyHandler::publishControlCommands: publish the hazard lights
command and the gear command (PARK when parking after stop is enabled and
the vehicle is stopped, DRIVE otherwise). -/
def publishControlCommands (p : Params) (h : HazardStatusMsg) (st : EHState) : List Event :=
  [Event.pubHazardCmd (createHazardCmdMsg p h st),
    Event.pubGearCmd
      (if p.use_parking_after_stopped = true ∧ isStopped st = true then GearCommand_PARK
        else GearCommand_DRIVE)]

/-- EmergencyHandler::onTimer: skip the tick unless the data is ready, then
recompute staleness, run the state machine, publish the control commands,
run the MRM arbitration, and publish the MRM state, in that order. -/
def onTimer (p : Params) (now : ℚ) (st : EHState) : Except String (EHState × List Event) :=
  match st.hazard_status_stamped with
  | none => Except.ok (st, [])
  | some h =>
    if isDataReady p st = true then
      let st1 := checkHazardStatusTimeout p now st
      match updateMrmState h st1 with
      | Except.error e => Except.error e
      | Except.ok st2 =>
        let cmds := publishControlCommands p h st2
        let r := operateMrm p h st2
        Except.ok (r.1,
          cmds ++ r.2 ++ [Event.pubMrmState r.1.mrm_state_state r.1.mrm_state_behavior])
    else
      Except.ok (st, [])

/-- EmergencyHandler::onHazardStatusStamped: store the message and stamp
its arrival time. -/
def onHazardStatusStamped (msg : HazardStatusMsg) (now : ℚ) (st : EHState) : EHState :=
  { st with hazard_status_stamped := some msg, stamp_hazard_status := now }

/-- EmergencyHandler::onOdometry: store the latest longitudinal velocity. -/
def onOdometry (vx : ℚ) (st : EHState) : EHState :=
  { st with odom_linear_x := vx }

/-- EmergencyHandler::onControlMode: store the latest control mode. -/
def onControlMode (mode : Nat) (st : EHState) : EHState :=
  { st with control_mode := mode }

/-- EmergencyHandler::onMrmComfortableStopStatus: store the latest
comfortable stop controller status. -/
def onMrmComfortableStopStatus (s : Nat) (st : EHState) : EHState :=
  { st with mrm_comfortable_stop_status := s }

/-- EmergencyHandler::onMrmEmergencyStopStatus: store the latest emergency
stop controller status. -/
def onMrmEmergencyStopStatus (s : Nat) (st : EHState) : EHState :=
  { st with mrm_emergency_stop_status := s }

/-- One inbound event of the node: a message callback or a timer tick. -/
inductive Input where
  | hazardStatus (h : HazardStatusMsg) (now : ℚ)
  | prevControlCommand
  | odometry (vx : ℚ)
  | controlMode (mode : Nat)
  | comfortableStopStatus (s : Nat)
  | emergencyStopStatus (s : Nat)
  | timer (now : ℚ)
  deriving DecidableEq

/-- Apply one inbound event to the node state, collecting the emitted
events; only updateMrmState inside a tick can throw. -/
def applyInput (p : Params) (st : EHState) : Input → Except String (EHState × List Event)
  | Input.hazardStatus h now => Except.ok (onHazardStatusStamped h now st, [])
  | Input.prevControlCommand => Except.ok (st, [])
  | Input.odometry vx => Except.ok (onOdometry vx st, [])
  | Input.controlMode mode => Except.ok (onControlMode mode st, [])
  | Input.comfortableStopStatus s => Except.ok (onMrmComfortableStopStatus s st, [])
  | Input.emergencyStopStatus s => Except.ok (onMrmEmergencyStopStatus s st, [])
  | Input.timer now => onTimer p now st

/-- Run a list of inbound events from a given state, concatenating the
emitted event traces. -/
def run (p : Params) (st : EHState) : List Input → Except String (EHState × List Event)
  | [] => Except.ok (st, [])
  | i :: rest =>
    match applyInput p st i with
    | Except.error e => Except.error e
    | Except.ok r1 =>
      match run p r1.1 rest with
      | Except.error e => Except.error e
      | Except.ok r2 => Except.ok (r2.1, r1.2 ++ r2.2)

/-- States of the handler reachable from the constructor state by message
callbacks and non-throwing timer ticks. -/
inductive Reachable (p : Params) : EHState → Prop
  | init : Reachable p initState
  | step {st st' : EHState} {i : Input} {evs : List Event} :
      Reachable p st → applyInput p st i = Except.ok (st', evs) → Reachable p st'


/-! Structural helper lemmas -/

theorem operateMrm_state_eq (p : Params) (h : HazardStatusMsg) (st : EHState) :
    (operateMrm p h st).1.mrm_state_state = st.mrm_state_state := by
  unfold operateMrm
  dsimp only
  split_ifs <;> rfl

theorem operateMrm_normal_behavior (p : Params) (h : HazardStatusMsg) (st : EHState)
    (hs : st.mrm_state_state = MrmState_NORMAL) :
    (operateMrm p h st).1.mrm_state_behavior = MrmState_NONE := by
  unfold operateMrm
  dsimp only
  split_ifs <;> simp_all

theorem checkHazardStatusTimeout_shape (p : Params) (now : ℚ) (st : EHState) :
    ∃ b, checkHazardStatusTimeout p now st = { st with is_hazard_status_timeout := b } := by
  unfold checkHazardStatusTimeout
  split_ifs <;> exact ⟨_, rfl⟩

theorem transitionTo_ok (s : Nat) (st st' : EHState)
    (h : transitionTo s st = Except.ok st') :
    st' = { st with mrm_state_state := s } := by
  unfold transitionTo at h
  split at h
  · exact absurd h (by simp)
  · split at h
    · exact absurd h (by simp)
    · injection h with h3
      exact h3.symm

theorem updateMrmState_ok (h : HazardStatusMsg) (st st' : EHState)
    (hok : updateMrmState h st = Except.ok st') :
    ∃ s, st' = { st with mrm_state_state := s } := by
  unfold updateMrmState at hok
  split_ifs at hok <;>
    first
      | exact ⟨_, transitionTo_ok _ _ _ hok⟩
      | (injection hok with h1; exact ⟨st.mrm_state_state, h1.symm⟩)


theorem getCurrentMrmBehavior_fix (p : Params) (h : HazardStatusMsg) (st : EHState) :
    getCurrentMrmBehavior p h
        { st with mrm_state_behavior := getCurrentMrmBehavior p h st } =
      getCurrentMrmBehavior p h st := by
  unfold getCurrentMrmBehavior
  dsimp only
  split_ifs <;>
    simp_all [MrmState_NONE, MrmState_COMFORTABLE_STOP, MrmState_EMERGENCY_STOP,
      HazardStatus_LATENT_FAULT, HazardStatus_SINGLE_POINT_FAULT]

theorem getCurrentMrmBehavior_only_behavior (p : Params) (h : HazardStatusMsg)
    (st' st : EHState) (hb : st'.mrm_state_behavior = st.mrm_state_behavior)
    (hf : st'.is_hazard_status_timeout = st.is_hazard_status_timeout) :
    getCurrentMrmBehavior p h st' = getCurrentMrmBehavior p h st := by
  unfold getCurrentMrmBehavior
  rw [hb, hf]

theorem operateMrm_spec (p : Params) (h : HazardStatusMsg) (st : EHState) :
    operateMrm p h st =
      if st.mrm_state_state = MrmState_NORMAL then
        if MrmState_NONE = st.mrm_state_behavior then (st, [])
        else ({ st with mrm_state_behavior := MrmState_NONE },
          cancelMrmBehavior st.mrm_state_behavior)
      else if st.mrm_state_state = MrmState_MRM_OPERATING then
        if getCurrentMrmBehavior p h st = st.mrm_state_behavior then (st, [])
        else ({ st with mrm_state_behavior := getCurrentMrmBehavior p h st },
          cancelMrmBehavior st.mrm_state_behavior ++
            callMrmBehavior (getCurrentMrmBehavior p h st))
      else if st.mrm_state_state = MrmState_MRM_SUCCEEDED then (st, [])
      else if st.mrm_state_state = MrmState_MRM_FAILED then (st, [])
      else (st, [Event.logWarn ("invalid MRM state: " ++ toString st.mrm_state_state)]) := by
  unfold operateMrm
  dsimp only
  split_ifs <;> simp_all

theorem operateMrm_quiet (p : Params) (h : HazardStatusMsg) (st : EHState)
    (hn : st.mrm_state_state = MrmState_NORMAL → st.mrm_state_behavior = MrmState_NONE)
    (ho : st.mrm_state_state = MrmState_MRM_OPERATING →
      getCurrentMrmBehavior p h st = st.mrm_state_behavior) :
    (operateMrm p h st).1 = st ∧ ∀ b o, Event.mrmRequest b o ∉ (operateMrm p h st).2 := by
  unfold operateMrm
  dsimp only
  split_ifs <;> simp_all

/-- C8 core: a second arbitration pass right after a first one with the same
inputs issues no MRM service request and leaves the state unchanged. -/
theorem operateMrm_idem (p : Params) (h : HazardStatusMsg) (st : EHState) :
    (operateMrm p h (operateMrm p h st).1).1 = (operateMrm p h st).1 ∧
      ∀ b o, Event.mrmRequest b o ∉ (operateMrm p h (operateMrm p h st).1).2 := by
  apply operateMrm_quiet
  · intro hn
    have hs : st.mrm_state_state = MrmState_NORMAL := by
      rw [← operateMrm_state_eq p h st]; exact hn
    exact operateMrm_normal_behavior p h st hs
  · intro ho
    have hs : st.mrm_state_state = MrmState_MRM_OPERATING := by
      rw [← operateMrm_state_eq p h st]; exact ho
    by_cases hg : getCurrentMrmBehavior p h st = st.mrm_state_behavior
    · rw [operateMrm_spec p h st]
      simp [hs, hg, MrmState_NORMAL, MrmState_MRM_OPERATING]
    · rw [operateMrm_spec p h st]
      simp only [hs, hg, MrmState_NORMAL, MrmState_MRM_OPERATING]
      norm_num
      exact (getCurrentMrmBehavior_only_behavior p h _
        { st with mrm_state_behavior := getCurrentMrmBehavior p h st } rfl rfl).trans
        (getCurrentMrmBehavior_fix p h st)


theorem getCurrentMrmBehavior_cases (p : Params) (h : HazardStatusMsg) (st : EHState) :
    getCurrentMrmBehavior p h st = st.mrm_state_behavior
    ∨ (st.mrm_state_behavior = MrmState_NONE ∧
        getCurrentMrmBehavior p h st = MrmState_COMFORTABLE_STOP)
    ∨ (st.mrm_state_behavior = MrmState_NONE ∧
        getCurrentMrmBehavior p h st = MrmState_EMERGENCY_STOP)
    ∨ (st.mrm_state_behavior = MrmState_COMFORTABLE_STOP ∧
        getCurrentMrmBehavior p h st = MrmState_EMERGENCY_STOP) := by
  unfold getCurrentMrmBehavior
  dsimp only
  split_ifs <;> simp_all

theorem operateMrm_behavior_step (p : Params) (h : HazardStatusMsg) (st : EHState) :
    (operateMrm p h st).1.mrm_state_behavior = st.mrm_state_behavior
    ∨ (st.mrm_state_behavior = MrmState_NONE ∧
        (operateMrm p h st).1.mrm_state_behavior = MrmState_COMFORTABLE_STOP)
    ∨ (st.mrm_state_behavior = MrmState_NONE ∧
        (operateMrm p h st).1.mrm_state_behavior = MrmState_EMERGENCY_STOP)
    ∨ (st.mrm_state_behavior = MrmState_COMFORTABLE_STOP ∧
        (operateMrm p h st).1.mrm_state_behavior = MrmState_EMERGENCY_STOP)
    ∨ ((operateMrm p h st).1.mrm_state_behavior = MrmState_NONE ∧
        (operateMrm p h st).1.mrm_state_state = MrmState_NORMAL) := by
  rw [operateMrm_spec]
  split_ifs with h1 h2 h3 h4 h5 <;> simp_all
  rcases getCurrentMrmBehavior_cases p h st with hc | hc | hc | hc <;> simp_all

theorem cancelMrmBehavior_events (b : Nat) :
    ∀ e ∈ cancelMrmBehavior b,
      (∃ b2 o, e = Event.mrmRequest b2 o) ∨ ∃ m, e = Event.logWarn m := by
  unfold cancelMrmBehavior
  split_ifs <;> simp

theorem callMrmBehavior_events (b : Nat) :
    ∀ e ∈ callMrmBehavior b,
      (∃ b2 o, e = Event.mrmRequest b2 o) ∨ ∃ m, e = Event.logWarn m := by
  unfold callMrmBehavior
  split_ifs <;> simp

theorem operateMrm_events (p : Params) (h : HazardStatusMsg) (st : EHState) :
    ∀ e ∈ (operateMrm p h st).2,
      (∃ b o, e = Event.mrmRequest b o) ∨ ∃ m, e = Event.logWarn m := by
  rw [operateMrm_spec]
  split_ifs
  · simp
  · exact cancelMrmBehavior_events _
  · simp
  · intro e he
    rcases List.mem_append.mp he with h6 | h6
    · exact cancelMrmBehavior_events _ e h6
    · exact callMrmBehavior_events _ e h6
  · simp
  · simp
  · intro e he
    simp only [List.mem_singleton] at he
    subst he
    exact Or.inr ⟨_, rfl⟩

theorem onTimer_ok (p : Params) (now : ℚ) (st st' : EHState) (evs : List Event)
    (hok : onTimer p now st = Except.ok (st', evs)) :
    (st' = st ∧ evs = [])
    ∨ ∃ h st2, st.hazard_status_stamped = some h
        ∧ isDataReady p st = true
        ∧ updateMrmState h (checkHazardStatusTimeout p now st) = Except.ok st2
        ∧ st' = (operateMrm p h st2).1
        ∧ evs = publishControlCommands p h st2 ++ (operateMrm p h st2).2 ++
            [Event.pubMrmState st'.mrm_state_state st'.mrm_state_behavior] := by
  unfold onTimer at hok
  split at hok
  · left
    simp only [Except.ok.injEq, Prod.mk.injEq] at hok
    exact ⟨hok.1.symm, hok.2.symm⟩
  · rename_i h hh
    split_ifs at hok with hready
    · dsimp only at hok
      split at hok
      · exact absurd hok (by simp)
      · rename_i st2 hupd
        right
        simp only [Except.ok.injEq, Prod.mk.injEq] at hok
        refine ⟨h, st2, hh, hready, hupd, hok.1.symm, ?_⟩
        rw [← hok.1]
        exact hok.2.symm
    · left
      simp only [Except.ok.injEq, Prod.mk.injEq] at hok
      exact ⟨hok.1.symm, hok.2.symm⟩

theorem isDataReady_false_onTimer (p : Params) (now : ℚ) (st : EHState)
    (hnr : isDataReady p st = false) :
    onTimer p now st = Except.ok (st, []) := by
  unfold onTimer
  split
  · rfl
  · split_ifs with hr
    · rw [hnr] at hr
      exact absurd hr (by simp)
    · rfl



/-! Concrete parameter sets and states used in witnesses and
counterexamples -/

/-- A parameter set with a one-second staleness deadline, parking after
stop, comfortable stop disabled, and hazard lights on emergency. -/
def paramsA : Params :=
  { timeout_hazard_status := 1
    use_parking_after_stopped := true
    use_comfortable_stop := false
    turning_hazard_on_emergency := true }

/-- A single-point-fault report with the emergency flag set. -/
def hazardSPF : HazardStatusMsg :=
  { level := HazardStatus_SINGLE_POINT_FAULT
    emergency := true
    emergency_holding := false }

/-- A no-fault report with both emergency flags clear. -/
def hazardNOF : HazardStatusMsg :=
  { level := HazardStatus_NO_FAULT
    emergency := false
    emergency_holding := false }

/-- A ready state: fault report received, emergency stop controller
available, autonomous mode, vehicle moving, NORMAL with behavior NONE. -/
def stReadyNormal : EHState :=
  { hazard_status_stamped := some hazardSPF
    stamp_hazard_status := 0
    odom_linear_x := 5
    control_mode := ControlModeReport_AUTONOMOUS
    mrm_comfortable_stop_status := MrmBehaviorStatus_NOT_AVAILABLE
    mrm_emergency_stop_status := MrmBehaviorStatus_AVAILABLE
    mrm_state_state := MrmState_NORMAL
    mrm_state_behavior := MrmState_NONE
    is_hazard_status_timeout := false }

/-- The state one tick after stReadyNormal: MRM_OPERATING with
EMERGENCY_STOP. -/
def stAfterNormalTick : EHState :=
  { stReadyNormal with
    mrm_state_state := MrmState_MRM_OPERATING
    mrm_state_behavior := MrmState_EMERGENCY_STOP }

/-- The event trace of that tick: hazard command, gear command, the
emergency stop call, then the MrmState publication. -/
def evsNormalTick : List Event :=
  [Event.pubHazardCmd HazardLightsCommand_ENABLE,
    Event.pubGearCmd GearCommand_DRIVE,
    Event.mrmRequest MrmState_EMERGENCY_STOP true,
    Event.pubMrmState MrmState_MRM_OPERATING MrmState_EMERGENCY_STOP]

/-! Reachability helpers -/

theorem applyInput_ok_mrm (p : Params) (st : EHState) (i : Input) (st' : EHState)
    (evs : List Event) (hstep : applyInput p st i = Except.ok (st', evs)) :
    (st'.mrm_state_state = st.mrm_state_state ∧
      st'.mrm_state_behavior = st.mrm_state_behavior)
    ∨ ∃ now, i = Input.timer now ∧ onTimer p now st = Except.ok (st', evs) := by
  cases i <;> simp only [applyInput] at hstep
  case timer now => exact Or.inr ⟨now, rfl, hstep⟩
  all_goals
    left
    simp only [Except.ok.injEq, Prod.mk.injEq] at hstep
    rw [← hstep.1]
    exact ⟨rfl, rfl⟩

theorem reachable_normal_none (p : Params) (st : EHState) (hr : Reachable p st) :
    st.mrm_state_state = MrmState_NORMAL → st.mrm_state_behavior = MrmState_NONE := by
  induction hr with
  | init => intro _; rfl
  | step hr hstep ih =>
    rename_i st0 st' i evs
    rcases applyInput_ok_mrm _ _ _ _ _ hstep with ⟨h1, h2⟩ | ⟨now, _, hok⟩
    · intro hN
      rw [h2]
      exact ih (by rw [← h1]; exact hN)
    · rcases onTimer_ok _ _ _ _ _ hok with ⟨hst, _⟩ | ⟨h2, st2, _, _, _, hst', _⟩
      · intro hN
        rw [hst]
        exact ih (by rw [← hst]; exact hN)
      · intro hN
        rw [hst']
        apply operateMrm_normal_behavior
        rw [← operateMrm_state_eq p h2 st2, ← hst']
        exact hN



/-! Claim C1 -/

/-- C1: in every reachable state of the handler, if the MRM state field is
NORMAL then the behavior field is NONE; moreover every MrmState message
published by a tick from a reachable state with state NORMAL carries
behavior NONE, because the arbitration step resets the behavior to NONE
before the state is published. -/
theorem C1_normal_state_implies_behavior_none (p : Params) (st : EHState)
    (hr : Reachable p st) :
    (st.mrm_state_state = MrmState_NORMAL → st.mrm_state_behavior = MrmState_NONE) ∧
      ∀ now st' evs s b, onTimer p now st = Except.ok (st', evs) →
        Event.pubMrmState s b ∈ evs → s = MrmState_NORMAL → b = MrmState_NONE := by
  refine ⟨reachable_normal_none p st hr, ?_⟩
  intro now st' evs s b hok hmem hs
  rcases onTimer_ok _ _ _ _ _ hok with ⟨_, hevs⟩ | ⟨h2, st2, _, _, _, hst', hevs⟩
  · rw [hevs] at hmem
    exact absurd hmem (by simp)
  · rw [hevs] at hmem
    rcases List.mem_append.mp hmem with hmem1 | hmem2
    · rcases List.mem_append.mp hmem1 with hmem3 | hmem4
      · exact absurd hmem3 (by simp [publishControlCommands])
      · rcases operateMrm_events p h2 st2 _ hmem4 with ⟨_, _, hbad⟩ | ⟨_, hbad⟩ <;>
          simp at hbad
    · simp only [List.mem_singleton, Event.pubMrmState.injEq] at hmem2
      rw [hmem2.2, hst']
      apply operateMrm_normal_behavior
      rw [← operateMrm_state_eq p h2 st2, ← hst', ← hmem2.1]
      exact hs

/-- Witness for C1 at the constructor state, which is reachable and in
NORMAL. -/
theorem C1_witness : initState.mrm_state_behavior = MrmState_NONE :=
  (C1_normal_state_implies_behavior_none paramsA initState Reachable.init).1 rfl

/-! Claim C2 -/

/-- C2: across any single step of the handler (any callback or tick), the
behavior field either stays unchanged, escalates along
NONE to COMFORTABLE_STOP, NONE to EMERGENCY_STOP, or COMFORTABLE_STOP to
EMERGENCY_STOP, or is reset to NONE with the state ending at NORMAL
(recovery); in particular EMERGENCY_STOP never changes to
COMFORTABLE_STOP. -/
theorem C2_behavior_monotone_step (p : Params) (st : EHState) (i : Input)
    (st' : EHState) (evs : List Event)
    (hstep : applyInput p st i = Except.ok (st', evs)) :
    st'.mrm_state_behavior = st.mrm_state_behavior
    ∨ (st.mrm_state_behavior = MrmState_NONE ∧
        st'.mrm_state_behavior = MrmState_COMFORTABLE_STOP)
    ∨ (st.mrm_state_behavior = MrmState_NONE ∧
        st'.mrm_state_behavior = MrmState_EMERGENCY_STOP)
    ∨ (st.mrm_state_behavior = MrmState_COMFORTABLE_STOP ∧
        st'.mrm_state_behavior = MrmState_EMERGENCY_STOP)
    ∨ (st'.mrm_state_behavior = MrmState_NONE ∧
        st'.mrm_state_state = MrmState_NORMAL) := by
  rcases applyInput_ok_mrm _ _ _ _ _ hstep with ⟨_, h2⟩ | ⟨now, _, hok⟩
  · exact Or.inl h2
  · rcases onTimer_ok _ _ _ _ _ hok with ⟨hst, _⟩ | ⟨h2, st2, _, _, hupd, hst', _⟩
    · rw [hst]
      exact Or.inl rfl
    · have hb2 : st2.mrm_state_behavior = st.mrm_state_behavior := by
        rcases updateMrmState_ok _ _ _ hupd with ⟨s, hs2⟩
        rcases checkHazardStatusTimeout_shape p now st with ⟨bfl, hsh⟩
        rw [hs2, hsh]
      rw [hst', ← hb2]
      exact operateMrm_behavior_step p h2 st2

unseal Rat.sub Rat.add Rat.mul Rat.inv in
/-- Witness for C2 at a concrete tick: the NORMAL-to-MRM_OPERATING tick
from stReadyNormal, on which the behavior escalates NONE to
EMERGENCY_STOP. -/
theorem C2_witness :
    stAfterNormalTick.mrm_state_behavior = stReadyNormal.mrm_state_behavior
    ∨ (stReadyNormal.mrm_state_behavior = MrmState_NONE ∧
        stAfterNormalTick.mrm_state_behavior = MrmState_COMFORTABLE_STOP)
    ∨ (stReadyNormal.mrm_state_behavior = MrmState_NONE ∧
        stAfterNormalTick.mrm_state_behavior = MrmState_EMERGENCY_STOP)
    ∨ (stReadyNormal.mrm_state_behavior = MrmState_COMFORTABLE_STOP ∧
        stAfterNormalTick.mrm_state_behavior = MrmState_EMERGENCY_STOP)
    ∨ (stAfterNormalTick.mrm_state_behavior = MrmState_NONE ∧
        stAfterNormalTick.mrm_state_state = MrmState_NORMAL) :=
  C2_behavior_monotone_step paramsA stReadyNormal (Input.timer 0)
    stAfterNormalTick evsNormalTick (by rfl)

/-! Claim C8 -/

/-- C8: running the arbitration step twice in succession with unchanged
inputs issues no MRM operate or cancel service request on the second run
and leaves the state unchanged: once the computed behavior equals the
committed one, arbitration is quiescent. -/
theorem C8_operateMrm_idempotent (p : Params) (h : HazardStatusMsg) (st : EHState) :
    (operateMrm p h (operateMrm p h st).1).1 = (operateMrm p h st).1 ∧
      ∀ b o, Event.mrmRequest b o ∉ (operateMrm p h (operateMrm p h st).1).2 := by
  apply operateMrm_quiet
  · intro hn
    have hs : st.mrm_state_state = MrmState_NORMAL := by
      rw [← operateMrm_state_eq p h st]; exact hn
    exact operateMrm_normal_behavior p h st hs
  · intro ho
    have hs : st.mrm_state_state = MrmState_MRM_OPERATING := by
      rw [← operateMrm_state_eq p h st]; exact ho
    by_cases hg : getCurrentMrmBehavior p h st = st.mrm_state_behavior
    · rw [operateMrm_spec p h st]
      simp [hs, hg, MrmState_NORMAL, MrmState_MRM_OPERATING]
    · rw [operateMrm_spec p h st]
      simp only [hs, hg, MrmState_NORMAL, MrmState_MRM_OPERATING]
      norm_num
      exact (getCurrentMrmBehavior_only_behavior p h _
        { st with mrm_state_behavior := getCurrentMrmBehavior p h st } rfl rfl).trans
        (getCurrentMrmBehavior_fix p h st)



/-! Claim C3 -/

/-- A reachable-shape state in MRM_SUCCEEDED with behavior
COMFORTABLE_STOP while the fault report still shows SINGLE_POINT_FAULT
with the emergency flag set. -/
def stSucceededCS : EHState :=
  { stReadyNormal with
    mrm_state_state := MrmState_MRM_SUCCEEDED
    mrm_state_behavior := MrmState_COMFORTABLE_STOP }

unseal Rat.sub Rat.add Rat.mul Rat.inv in
/-- Counterexample to C3: a tick in MRM_SUCCEEDED with behavior
COMFORTABLE_STOP and effective level SINGLE_POINT_FAULT leaves the
behavior at COMFORTABLE_STOP and issues no MRM service request at all,
instead of escalating to EMERGENCY_STOP as the claim asserts. -/
theorem C3_counterexample :
    stSucceededCS.mrm_state_state = MrmState_MRM_SUCCEEDED
    ∧ stSucceededCS.mrm_state_behavior = MrmState_COMFORTABLE_STOP
    ∧ hazardSPF.level = HazardStatus_SINGLE_POINT_FAULT
    ∧ onTimer paramsA 0 stSucceededCS = Except.ok (stSucceededCS,
        [Event.pubHazardCmd HazardLightsCommand_ENABLE,
          Event.pubGearCmd GearCommand_DRIVE,
          Event.pubMrmState MrmState_MRM_SUCCEEDED MrmState_COMFORTABLE_STOP])
    ∧ ¬ MrmState_COMFORTABLE_STOP = MrmState_EMERGENCY_STOP := by
  refine ⟨rfl, rfl, rfl, by rfl, by decide⟩

/-- C3 amended: the selection and escalation rules of the arbitration step
run only in MRM_OPERATING; on every tick in which the state is
MRM_SUCCEEDED or MRM_FAILED the arbitration step does nothing: no service
request is issued and the behavior field keeps its value, even when it is
COMFORTABLE_STOP and the effective fault level is SINGLE_POINT_FAULT. -/
theorem C3_amended_no_escalation_after_operating (p : Params)
    (h : HazardStatusMsg) (st : EHState)
    (hs : st.mrm_state_state = MrmState_MRM_SUCCEEDED ∨
      st.mrm_state_state = MrmState_MRM_FAILED) :
    operateMrm p h st = (st, []) := by
  rw [operateMrm_spec]
  rcases hs with hs | hs <;>
    simp [hs, MrmState_NORMAL, MrmState_MRM_OPERATING, MrmState_MRM_SUCCEEDED,
      MrmState_MRM_FAILED]

/-- Witness for the amended C3 at the concrete MRM_SUCCEEDED state. -/
theorem C3_amended_witness : operateMrm paramsA hazardSPF stSucceededCS =
    (stSucceededCS, []) :=
  C3_amended_no_escalation_after_operating paramsA hazardSPF stSucceededCS
    (Or.inl rfl)

/-! Claim C4 -/

unseal Rat.sub Rat.add Rat.mul Rat.inv in
/-- Counterexample to C4: on the concrete NORMAL-to-MRM_OPERATING tick the
hazard-light and gear commands are published before the arbitration step
issues its service call, so the command publication step does not run
after the arbitration step as the claim asserts: the trace places
pubHazardCmd and pubGearCmd before the mrmRequest. -/
theorem C4_counterexample :
    onTimer paramsA 0 stReadyNormal = Except.ok (stAfterNormalTick,
      [Event.pubHazardCmd HazardLightsCommand_ENABLE,
        Event.pubGearCmd GearCommand_DRIVE,
        Event.mrmRequest MrmState_EMERGENCY_STOP true,
        Event.pubMrmState MrmState_MRM_OPERATING MrmState_EMERGENCY_STOP]) := by
  rfl

/-- C4 amended: on every tick that passes the readiness gate the steps run
in the order staleness recomputation, state machine, command publication,
arbitration, MrmState publication: the emitted trace of every successful
tick is the hazard command, then the gear command, then the arbitration
events (service requests or warnings), then the MrmState publication
last. -/
theorem C4_amended_commands_before_arbitration (p : Params) (now : ℚ)
    (st st' : EHState) (evs : List Event)
    (hok : onTimer p now st = Except.ok (st', evs)) :
    evs = []
    ∨ ∃ hz g ms, evs = Event.pubHazardCmd hz :: Event.pubGearCmd g :: ms ++
        [Event.pubMrmState st'.mrm_state_state st'.mrm_state_behavior]
      ∧ ∀ e ∈ ms, (∃ b o, e = Event.mrmRequest b o) ∨ ∃ m, e = Event.logWarn m := by
  rcases onTimer_ok _ _ _ _ _ hok with ⟨_, hevs⟩ | ⟨h2, st2, _, _, _, _, hevs⟩
  · exact Or.inl hevs
  · right
    refine ⟨createHazardCmdMsg p h2 st2,
      (if p.use_parking_after_stopped = true ∧ isStopped st2 = true then GearCommand_PARK
        else GearCommand_DRIVE),
      (operateMrm p h2 st2).2, ?_, operateMrm_events p h2 st2⟩
    rw [hevs]
    simp [publishControlCommands]

unseal Rat.sub Rat.add Rat.mul Rat.inv in
/-- Witness for the amended C4 on the concrete NORMAL-to-MRM_OPERATING
tick. -/
theorem C4_amended_witness :
    evsNormalTick = []
    ∨ ∃ hz g ms, evsNormalTick = Event.pubHazardCmd hz :: Event.pubGearCmd g :: ms ++
        [Event.pubMrmState stAfterNormalTick.mrm_state_state
          stAfterNormalTick.mrm_state_behavior]
      ∧ ∀ e ∈ ms, (∃ b o, e = Event.mrmRequest b o) ∨ ∃ m, e = Event.logWarn m :=
  C4_amended_commands_before_arbitration paramsA 0 stReadyNormal
    stAfterNormalTick evsNormalTick (by rfl)



/-! Claim C5 -/

/-- A ready state in MRM_OPERATING whose behavior field holds 99, outside
the declared behavior enumeration. -/
def stInvalidBehavior : EHState :=
  { stReadyNormal with
    mrm_state_state := MrmState_MRM_OPERATING
    mrm_state_behavior := 99 }

/-- A ready state whose state field holds 99, outside the declared state
enumeration. -/
def stInvalidState : EHState :=
  { stReadyNormal with mrm_state_state := 99 }

unseal Rat.sub Rat.add Rat.mul Rat.inv in
/-- Counterexample to C5: with the stored behavior field holding 99
(outside the declared enumeration) the tick completes without any error:
it silently keeps the invalid behavior, publishes it in the MrmState
message, and does not even log a warning; and the arbitration step on a
state field holding 99 merely logs a warning and continues instead of
aborting. -/
theorem C5_counterexample :
    ¬ (stInvalidBehavior.mrm_state_behavior = MrmState_NONE ∨
        stInvalidBehavior.mrm_state_behavior = MrmState_COMFORTABLE_STOP ∨
        stInvalidBehavior.mrm_state_behavior = MrmState_EMERGENCY_STOP)
    ∧ onTimer paramsA 0 stInvalidBehavior = Except.ok (stInvalidBehavior,
        [Event.pubHazardCmd HazardLightsCommand_ENABLE,
          Event.pubGearCmd GearCommand_DRIVE,
          Event.pubMrmState MrmState_MRM_OPERATING 99])
    ∧ operateMrm paramsA hazardSPF stInvalidState =
        (stInvalidState, [Event.logWarn ("invalid MRM state: 99")]) := by
  refine ⟨by decide, by rfl, by rfl⟩

theorem state2string_invalid (s : Nat)
    (hinv : ¬ (s = MrmState_NORMAL ∨ s = MrmState_MRM_OPERATING ∨
      s = MrmState_MRM_SUCCEEDED ∨ s = MrmState_MRM_FAILED)) :
    state2string s = Except.error ("invalid state: " ++ toString s) := by
  unfold state2string
  split_ifs <;> simp_all

theorem transitionTo_invalid_src (s : Nat) (st : EHState)
    (hinv : ¬ (st.mrm_state_state = MrmState_NORMAL ∨
      st.mrm_state_state = MrmState_MRM_OPERATING ∨
      st.mrm_state_state = MrmState_MRM_SUCCEEDED ∨
      st.mrm_state_state = MrmState_MRM_FAILED)) :
    transitionTo s st =
      Except.error ("invalid state: " ++ toString st.mrm_state_state) := by
  unfold transitionTo
  rw [state2string_invalid _ hinv]

/-- C5 amended: an out-of-range state value is fatal only in the state
machine: updateMrmState throws on it on every path; the arbitration step
instead logs a warning and continues with the state unchanged, and an
out-of-range behavior value is never fatal: the call and cancel helpers
log a warning and carry on. -/
theorem C5_amended_invalid_value_handling :
    (∀ (h : HazardStatusMsg) (st : EHState),
      ¬ (st.mrm_state_state = MrmState_NORMAL ∨
          st.mrm_state_state = MrmState_MRM_OPERATING ∨
          st.mrm_state_state = MrmState_MRM_SUCCEEDED ∨
          st.mrm_state_state = MrmState_MRM_FAILED) →
        ∃ e, updateMrmState h st = Except.error e)
    ∧ (∀ (p : Params) (h : HazardStatusMsg) (st : EHState),
      ¬ (st.mrm_state_state = MrmState_NORMAL ∨
          st.mrm_state_state = MrmState_MRM_OPERATING ∨
          st.mrm_state_state = MrmState_MRM_SUCCEEDED ∨
          st.mrm_state_state = MrmState_MRM_FAILED) →
        operateMrm p h st = (st,
          [Event.logWarn ("invalid MRM state: " ++ toString st.mrm_state_state)]))
    ∧ (∀ b : Nat,
      ¬ (b = MrmState_NONE ∨ b = MrmState_COMFORTABLE_STOP ∨
          b = MrmState_EMERGENCY_STOP) →
        callMrmBehavior b = [Event.logWarn ("invalid MRM behavior: " ++ toString b)]
        ∧ cancelMrmBehavior b =
            [Event.logWarn ("invalid MRM behavior: " ++ toString b)]) := by
  refine ⟨?_, ?_, ?_⟩
  · intro h st hinv
    have n1 : ¬ st.mrm_state_state = MrmState_NORMAL := fun hh => hinv (Or.inl hh)
    have n2 : ¬ st.mrm_state_state = MrmState_MRM_OPERATING :=
      fun hh => hinv (Or.inr (Or.inl hh))
    have n3 : ¬ st.mrm_state_state = MrmState_MRM_SUCCEEDED :=
      fun hh => hinv (Or.inr (Or.inr (Or.inl hh)))
    have n4 : ¬ st.mrm_state_state = MrmState_MRM_FAILED :=
      fun hh => hinv (Or.inr (Or.inr (Or.inr hh)))
    unfold updateMrmState
    rw [if_neg n1]
    by_cases he : isEmergency h st = false
    · rw [if_pos he]
      exact ⟨_, transitionTo_invalid_src _ st hinv⟩
    · rw [if_neg he, if_neg n2, if_neg n3, if_neg n4]
      exact ⟨_, rfl⟩
  · intro p h st hinv
    have n1 : ¬ st.mrm_state_state = MrmState_NORMAL := fun hh => hinv (Or.inl hh)
    have n2 : ¬ st.mrm_state_state = MrmState_MRM_OPERATING :=
      fun hh => hinv (Or.inr (Or.inl hh))
    have n3 : ¬ st.mrm_state_state = MrmState_MRM_SUCCEEDED :=
      fun hh => hinv (Or.inr (Or.inr (Or.inl hh)))
    have n4 : ¬ st.mrm_state_state = MrmState_MRM_FAILED :=
      fun hh => hinv (Or.inr (Or.inr (Or.inr hh)))
    rw [operateMrm_spec, if_neg n1, if_neg n2, if_neg n3, if_neg n4]
  · intro b hinv
    have m1 : ¬ b = MrmState_NONE := fun hh => hinv (Or.inl hh)
    have m2 : ¬ b = MrmState_COMFORTABLE_STOP := fun hh => hinv (Or.inr (Or.inl hh))
    have m3 : ¬ b = MrmState_EMERGENCY_STOP := fun hh => hinv (Or.inr (Or.inr hh))
    constructor
    · unfold callMrmBehavior
      rw [if_neg m1, if_neg m2, if_neg m3]
    · unfold cancelMrmBehavior
      rw [if_neg m1, if_neg m2, if_neg m3]

/-- Witness for the amended C5 at the concrete invalid values 99. -/
theorem C5_amended_witness :
    (∃ e, updateMrmState hazardSPF stInvalidState = Except.error e)
    ∧ operateMrm paramsA hazardSPF stInvalidState = (stInvalidState,
        [Event.logWarn ("invalid MRM state: " ++ toString stInvalidState.mrm_state_state)])
    ∧ callMrmBehavior 99 = [Event.logWarn ("invalid MRM behavior: " ++ toString 99)]
    ∧ cancelMrmBehavior 99 = [Event.logWarn ("invalid MRM behavior: " ++ toString 99)] :=
  ⟨C5_amended_invalid_value_handling.1 hazardSPF stInvalidState (by decide),
    C5_amended_invalid_value_handling.2.1 paramsA hazardSPF stInvalidState (by decide),
    (C5_amended_invalid_value_handling.2.2 99 (by decide)).1,
    (C5_amended_invalid_value_handling.2.2 99 (by decide)).2⟩



/-! Claim C6 -/

theorem applyInput_not_ready_ok (p : Params) (st : EHState) (i : Input)
    (hnr : isDataReady p st = false) :
    ∃ st1, applyInput p st i = Except.ok (st1, []) ∧
      st1.mrm_state_state = st.mrm_state_state ∧
      st1.mrm_state_behavior = st.mrm_state_behavior := by
  cases i
  case timer now => exact ⟨st, isDataReady_false_onTimer p now st hnr, rfl, rfl⟩
  all_goals exact ⟨_, rfl, rfl, rfl⟩

theorem run_not_ready (p : Params) (P : EHState → Prop)
    (hnr : ∀ st, P st → isDataReady p st = false) :
    ∀ (inputs : List Input) (st : EHState), P st →
      (∀ st0 st1 i, P st0 → i ∈ inputs →
        applyInput p st0 i = Except.ok (st1, []) → P st1) →
      ∃ st', run p st inputs = Except.ok (st', []) ∧ P st' ∧
        st'.mrm_state_state = st.mrm_state_state ∧
        st'.mrm_state_behavior = st.mrm_state_behavior := by
  intro inputs
  induction inputs with
  | nil => exact fun st hP _ => ⟨st, rfl, hP, rfl, rfl⟩
  | cons i rest ih =>
    intro st hP hpres
    rcases applyInput_not_ready_ok p st i (hnr st hP) with ⟨st1, hstep, hs1, hb1⟩
    have hP1 : P st1 := hpres st st1 i hP (List.mem_cons_self i rest) hstep
    rcases ih st1 hP1
        (fun st0 st2 j hP0 hj => hpres st0 st2 j hP0 (List.mem_cons_of_mem i hj)) with
      ⟨st', hrun, hP', hs', hb'⟩
    refine ⟨st', ?_, hP', hs'.trans hs1, hb'.trans hb1⟩
    simp only [run, hstep, hrun]
    rfl

theorem isDataReady_no_hazard (p : Params) (st : EHState)
    (hh : st.hazard_status_stamped = none) : isDataReady p st = false := by
  unfold isDataReady
  rw [hh]

theorem isDataReady_emergency_na (p : Params) (st : EHState)
    (he : st.mrm_emergency_stop_status = MrmBehaviorStatus_NOT_AVAILABLE) :
    isDataReady p st = false := by
  unfold isDataReady
  split
  · rfl
  · split_ifs <;> simp_all

theorem isDataReady_comfortable_na (p : Params) (st : EHState)
    (hc : p.use_comfortable_stop = true)
    (hs : st.mrm_comfortable_stop_status = MrmBehaviorStatus_NOT_AVAILABLE) :
    isDataReady p st = false := by
  unfold isDataReady
  split
  · rfl
  · split_ifs <;> simp_all

/-- C6: before the readiness conditions are met the loop does nothing: if
the input history contains no fault report, or no emergency stop
controller status other than NOT_AVAILABLE, or (with comfortable stop
enabled) no comfortable stop controller status other than NOT_AVAILABLE,
then running it from the constructor state publishes nothing, issues no
service request, and leaves the MRM state at NORMAL with behavior
NONE. -/
theorem C6_readiness_gate_blocks (p : Params) (inputs : List Input)
    (hmiss : (∀ h now, Input.hazardStatus h now ∉ inputs)
      ∨ (∀ s, ¬ s = MrmBehaviorStatus_NOT_AVAILABLE →
          Input.emergencyStopStatus s ∉ inputs)
      ∨ (p.use_comfortable_stop = true ∧
          ∀ s, ¬ s = MrmBehaviorStatus_NOT_AVAILABLE →
            Input.comfortableStopStatus s ∉ inputs)) :
    ∃ st', run p initState inputs = Except.ok (st', []) ∧
      st'.mrm_state_state = MrmState_NORMAL ∧
      st'.mrm_state_behavior = MrmState_NONE := by
  rcases hmiss with hm | hm | ⟨hc, hm⟩
  · have hpres : ∀ st0 st1 i, st0.hazard_status_stamped = none → i ∈ inputs →
        applyInput p st0 i = Except.ok (st1, []) → st1.hazard_status_stamped = none := by
      intro st0 st1 i hP0 hi hstep
      cases i
      case hazardStatus h now => exact absurd hi (hm h now)
      case timer now =>
        simp only [applyInput] at hstep
        rw [isDataReady_false_onTimer p now st0 (isDataReady_no_hazard p st0 hP0)] at hstep
        simp only [Except.ok.injEq, Prod.mk.injEq] at hstep
        rw [← hstep.1]
        exact hP0
      all_goals
        simp only [applyInput, Except.ok.injEq, Prod.mk.injEq] at hstep
        rw [← hstep.1]
        exact hP0
    rcases run_not_ready p (fun st => st.hazard_status_stamped = none)
        (fun st hP => isDataReady_no_hazard p st hP) inputs initState rfl hpres with
      ⟨st', h1, _, h3, h4⟩
    exact ⟨st', h1, h3, h4⟩
  · have hpres : ∀ st0 st1 i,
        st0.mrm_emergency_stop_status = MrmBehaviorStatus_NOT_AVAILABLE → i ∈ inputs →
        applyInput p st0 i = Except.ok (st1, []) →
        st1.mrm_emergency_stop_status = MrmBehaviorStatus_NOT_AVAILABLE := by
      intro st0 st1 i hP0 hi hstep
      cases i
      case emergencyStopStatus s =>
        simp only [applyInput] at hstep
        by_cases hsna : s = MrmBehaviorStatus_NOT_AVAILABLE
        · simp only [Except.ok.injEq, Prod.mk.injEq] at hstep
          rw [← hstep.1]
          exact hsna
        · exact absurd hi (hm s hsna)
      case timer now =>
        simp only [applyInput] at hstep
        rw [isDataReady_false_onTimer p now st0 (isDataReady_emergency_na p st0 hP0)] at hstep
        simp only [Except.ok.injEq, Prod.mk.injEq] at hstep
        rw [← hstep.1]
        exact hP0
      all_goals
        simp only [applyInput, Except.ok.injEq, Prod.mk.injEq] at hstep
        rw [← hstep.1]
        exact hP0
    rcases run_not_ready p
        (fun st => st.mrm_emergency_stop_status = MrmBehaviorStatus_NOT_AVAILABLE)
        (fun st hP => isDataReady_emergency_na p st hP) inputs initState rfl hpres with
      ⟨st', h1, _, h3, h4⟩
    exact ⟨st', h1, h3, h4⟩
  · have hpres : ∀ st0 st1 i,
        st0.mrm_comfortable_stop_status = MrmBehaviorStatus_NOT_AVAILABLE → i ∈ inputs →
        applyInput p st0 i = Except.ok (st1, []) →
        st1.mrm_comfortable_stop_status = MrmBehaviorStatus_NOT_AVAILABLE := by
      intro st0 st1 i hP0 hi hstep
      cases i
      case comfortableStopStatus s =>
        simp only [applyInput] at hstep
        by_cases hsna : s = MrmBehaviorStatus_NOT_AVAILABLE
        · simp only [Except.ok.injEq, Prod.mk.injEq] at hstep
          rw [← hstep.1]
          exact hsna
        · exact absurd hi (hm s hsna)
      case timer now =>
        simp only [applyInput] at hstep
        rw [isDataReady_false_onTimer p now st0
          (isDataReady_comfortable_na p st0 hc hP0)] at hstep
        simp only [Except.ok.injEq, Prod.mk.injEq] at hstep
        rw [← hstep.1]
        exact hP0
      all_goals
        simp only [applyInput, Except.ok.injEq, Prod.mk.injEq] at hstep
        rw [← hstep.1]
        exact hP0
    rcases run_not_ready p
        (fun st => st.mrm_comfortable_stop_status = MrmBehaviorStatus_NOT_AVAILABLE)
        (fun st hP => isDataReady_comfortable_na p st hc hP) inputs initState rfl hpres with
      ⟨st', h1, _, h3, h4⟩
    exact ⟨st', h1, h3, h4⟩

/-- Witness for C6: a single tick before any fault report was received
changes nothing and emits nothing. -/
theorem C6_witness :
    ∃ st', run paramsA initState [Input.timer 0] = Except.ok (st', []) ∧
      st'.mrm_state_state = MrmState_NORMAL ∧
      st'.mrm_state_behavior = MrmState_NONE :=
  C6_readiness_gate_blocks paramsA [Input.timer 0]
    (Or.inl (by intro h now; simp))



/-! Claim C7 -/

/-- C7: from any reachable ready configuration in NORMAL with autonomy
mode AUTONOMOUS whose last fault report is NO_FAULT with both emergency
flags clear, a tick whose time exceeds the staleness deadline sets the
staleness flag, makes isEmergency true, forces the effective severity to
SINGLE_POINT_FAULT, and ends in MRM_OPERATING with behavior
EMERGENCY_STOP, issuing the emergency stop call. -/
theorem C7_stale_heartbeat_forces_emergency_stop (p : Params) (st : EHState)
    (h : HazardStatusMsg) (now : ℚ)
    (hr : Reachable p st)
    (hh : st.hazard_status_stamped = some h)
    (hlev : h.level = HazardStatus_NO_FAULT)
    (hf1 : h.emergency = false)
    (hf2 : h.emergency_holding = false)
    (hs : st.mrm_state_state = MrmState_NORMAL)
    (hm : st.control_mode = ControlModeReport_AUTONOMOUS)
    (hready : isDataReady p st = true)
    (hstale : now - st.stamp_hazard_status > p.timeout_hazard_status) :
    ∃ hz g, onTimer p now st = Except.ok
      ({ st with
          is_hazard_status_timeout := true
          mrm_state_state := MrmState_MRM_OPERATING
          mrm_state_behavior := MrmState_EMERGENCY_STOP },
        [Event.pubHazardCmd hz, Event.pubGearCmd g,
          Event.mrmRequest MrmState_EMERGENCY_STOP true,
          Event.pubMrmState MrmState_MRM_OPERATING MrmState_EMERGENCY_STOP])
      ∧ isEmergency h { st with is_hazard_status_timeout := true } = true
      ∧ (if ({ st with is_hazard_status_timeout := true } : EHState).is_hazard_status_timeout
            = true then HazardStatus_SINGLE_POINT_FAULT else h.level)
          = HazardStatus_SINGLE_POINT_FAULT := by
  have hbeh : st.mrm_state_behavior = MrmState_NONE := reachable_normal_none p st hr hs
  have hcheck : checkHazardStatusTimeout p now st =
      { st with is_hazard_status_timeout := true } := by
    unfold checkHazardStatusTimeout
    rw [if_pos hstale]
  have hup : updateMrmState h { st with is_hazard_status_timeout := true } =
      Except.ok { st with
        is_hazard_status_timeout := true
        mrm_state_state := MrmState_MRM_OPERATING } := by
    unfold updateMrmState
    dsimp only
    rw [if_pos hs, if_pos ⟨hm, by simp [isEmergency]⟩]
    unfold transitionTo
    dsimp only
    rw [hs]
    rfl
  have hgeb : getCurrentMrmBehavior p h
      { st with
        is_hazard_status_timeout := true
        mrm_state_state := MrmState_MRM_OPERATING } = MrmState_EMERGENCY_STOP := by
    unfold getCurrentMrmBehavior
    dsimp only
    rw [hbeh]
    simp [MrmState_NONE, HazardStatus_LATENT_FAULT, HazardStatus_SINGLE_POINT_FAULT]
  have hop : operateMrm p h
      { st with
        is_hazard_status_timeout := true
        mrm_state_state := MrmState_MRM_OPERATING } =
      ({ st with
          is_hazard_status_timeout := true
          mrm_state_state := MrmState_MRM_OPERATING
          mrm_state_behavior := MrmState_EMERGENCY_STOP },
        [Event.mrmRequest MrmState_EMERGENCY_STOP true]) := by
    rw [operateMrm_spec]
    dsimp only
    rw [hgeb, hbeh]
    simp [MrmState_NORMAL, MrmState_MRM_OPERATING, MrmState_NONE,
      MrmState_EMERGENCY_STOP, cancelMrmBehavior, callMrmBehavior,
      MrmState_COMFORTABLE_STOP]
  refine ⟨createHazardCmdMsg p h
      { st with
        is_hazard_status_timeout := true
        mrm_state_state := MrmState_MRM_OPERATING },
    (if p.use_parking_after_stopped = true ∧
        isStopped { st with
          is_hazard_status_timeout := true
          mrm_state_state := MrmState_MRM_OPERATING } = true
      then GearCommand_PARK else GearCommand_DRIVE), ?_, by simp [isEmergency], by simp⟩
  unfold onTimer
  rw [hh]
  dsimp only
  rw [if_pos hready, hcheck, hup]
  dsimp only
  rw [hop, ← hh]
  rfl



/-- A concrete reachable ready state in NORMAL/AUTONOMOUS whose last
report is NO_FAULT: reached from the constructor state by a control mode
message, an emergency stop availability message, and a fault report. -/
def stC7W : EHState :=
  { hazard_status_stamped := some hazardNOF
    stamp_hazard_status := 0
    odom_linear_x := 0
    control_mode := ControlModeReport_AUTONOMOUS
    mrm_comfortable_stop_status := MrmBehaviorStatus_NOT_AVAILABLE
    mrm_emergency_stop_status := MrmBehaviorStatus_AVAILABLE
    mrm_state_state := MrmState_NORMAL
    mrm_state_behavior := MrmState_NONE
    is_hazard_status_timeout := false }

theorem stC7W_reachable : Reachable paramsA stC7W :=
  @Reachable.step paramsA _ stC7W (Input.hazardStatus hazardNOF 0) []
    (@Reachable.step paramsA _ _ (Input.emergencyStopStatus MrmBehaviorStatus_AVAILABLE) []
      (@Reachable.step paramsA initState _ (Input.controlMode ControlModeReport_AUTONOMOUS) []
        Reachable.init rfl)
      rfl)
    rfl

unseal Rat.sub Rat.add Rat.mul Rat.inv in
/-- Witness for C7: ten seconds of heartbeat silence in the concrete
reachable NORMAL state forces MRM_OPERATING with EMERGENCY_STOP. -/
theorem C7_witness :
    ∃ hz g, onTimer paramsA 10 stC7W = Except.ok
      ({ stC7W with
          is_hazard_status_timeout := true
          mrm_state_state := MrmState_MRM_OPERATING
          mrm_state_behavior := MrmState_EMERGENCY_STOP },
        [Event.pubHazardCmd hz, Event.pubGearCmd g,
          Event.mrmRequest MrmState_EMERGENCY_STOP true,
          Event.pubMrmState MrmState_MRM_OPERATING MrmState_EMERGENCY_STOP])
      ∧ isEmergency hazardNOF { stC7W with is_hazard_status_timeout := true } = true
      ∧ (if ({ stC7W with is_hazard_status_timeout := true } : EHState).is_hazard_status_timeout
            = true then HazardStatus_SINGLE_POINT_FAULT else hazardNOF.level)
          = HazardStatus_SINGLE_POINT_FAULT :=
  C7_stale_heartbeat_forces_emergency_stop paramsA stC7W hazardNOF 10
    stC7W_reachable rfl rfl rfl rfl rfl rfl rfl (by decide)

/-! Claim C9 -/

/-- A ready state in MRM_OPERATING with behavior COMFORTABLE_STOP whose
fault level is SINGLE_POINT_FAULT and whose vehicle is already stopped. -/
def stOperatingCSStopped : EHState :=
  { stReadyNormal with
    mrm_state_state := MrmState_MRM_OPERATING
    mrm_state_behavior := MrmState_COMFORTABLE_STOP
    odom_linear_x := 0 }

unseal Rat.sub Rat.add Rat.mul Rat.inv in
/-- Counterexample to C9: a tick starting in MRM_OPERATING with behavior
COMFORTABLE_STOP and effective fault level SINGLE_POINT_FAULT on which
the vehicle is stopped transitions to MRM_SUCCEEDED instead, and the
arbitration step issues no cancel and no call at all: the behavior stays
COMFORTABLE_STOP, contradicting the claimed exactly-one-cancel-then-call
behavior for every such tick. -/
theorem C9_counterexample :
    stOperatingCSStopped.mrm_state_state = MrmState_MRM_OPERATING
    ∧ stOperatingCSStopped.mrm_state_behavior = MrmState_COMFORTABLE_STOP
    ∧ hazardSPF.level = HazardStatus_SINGLE_POINT_FAULT
    ∧ onTimer paramsA 0 stOperatingCSStopped = Except.ok
        ({ stOperatingCSStopped with mrm_state_state := MrmState_MRM_SUCCEEDED },
          [Event.pubHazardCmd HazardLightsCommand_ENABLE,
            Event.pubGearCmd GearCommand_PARK,
            Event.pubMrmState MrmState_MRM_SUCCEEDED MrmState_COMFORTABLE_STOP]) :=
  ⟨rfl, rfl, rfl, by rfl⟩

/-- C9 amended: on every ready tick starting in MRM_OPERATING with
behavior COMFORTABLE_STOP and effective fault level SINGLE_POINT_FAULT
which stays in MRM_OPERATING (emergency still active after the staleness
recomputation and the vehicle not stopped), the arbitration step issues
exactly one cancel of COMFORTABLE_STOP followed by exactly one call of
EMERGENCY_STOP, and the committed and published behavior is
EMERGENCY_STOP. -/
theorem C9_amended_escalation_cancel_then_call (p : Params) (st : EHState)
    (h : HazardStatusMsg) (now : ℚ)
    (hh : st.hazard_status_stamped = some h)
    (hs : st.mrm_state_state = MrmState_MRM_OPERATING)
    (hb : st.mrm_state_behavior = MrmState_COMFORTABLE_STOP)
    (hready : isDataReady p st = true)
    (heff : (if now - st.stamp_hazard_status > p.timeout_hazard_status then
        HazardStatus_SINGLE_POINT_FAULT else h.level) = HazardStatus_SINGLE_POINT_FAULT)
    (hem : isEmergency h (checkHazardStatusTimeout p now st) = true)
    (hstop : isStopped st = false) :
    ∃ hz g, onTimer p now st = Except.ok
      ({ checkHazardStatusTimeout p now st with
          mrm_state_behavior := MrmState_EMERGENCY_STOP },
        [Event.pubHazardCmd hz, Event.pubGearCmd g,
          Event.mrmRequest MrmState_COMFORTABLE_STOP false,
          Event.mrmRequest MrmState_EMERGENCY_STOP true,
          Event.pubMrmState MrmState_MRM_OPERATING MrmState_EMERGENCY_STOP]) := by
  by_cases hst : now - st.stamp_hazard_status > p.timeout_hazard_status
  · have hcheck : checkHazardStatusTimeout p now st =
        { st with is_hazard_status_timeout := true } := by
      unfold checkHazardStatusTimeout
      rw [if_pos hst]
    rw [hcheck] at hem
    have hsx : ({ st with is_hazard_status_timeout := true } : EHState).mrm_state_state
        = MrmState_MRM_OPERATING := hs
    have hstopx : isStopped { st with is_hazard_status_timeout := true } = false := hstop
    have hgeb : getCurrentMrmBehavior p h { st with is_hazard_status_timeout := true }
        = MrmState_EMERGENCY_STOP := by
      unfold getCurrentMrmBehavior
      dsimp only
      rw [hb]
      simp [MrmState_NONE, MrmState_COMFORTABLE_STOP, HazardStatus_SINGLE_POINT_FAULT]
    have hup : updateMrmState h { st with is_hazard_status_timeout := true } =
        Except.ok { st with is_hazard_status_timeout := true } := by
      unfold updateMrmState
      rw [if_neg (by rw [hsx]; decide), if_neg (by simp [isEmergency]), if_pos hsx,
        if_neg (by simp [hstopx])]
    have hop : operateMrm p h { st with is_hazard_status_timeout := true } =
        ({ st with
            is_hazard_status_timeout := true
            mrm_state_behavior := MrmState_EMERGENCY_STOP },
          [Event.mrmRequest MrmState_COMFORTABLE_STOP false,
            Event.mrmRequest MrmState_EMERGENCY_STOP true]) := by
      rw [operateMrm_spec]
      dsimp only
      rw [hgeb, hs, hb]
      simp [MrmState_NORMAL, MrmState_MRM_OPERATING, MrmState_NONE,
        MrmState_EMERGENCY_STOP, MrmState_COMFORTABLE_STOP,
        cancelMrmBehavior, callMrmBehavior]
    refine ⟨createHazardCmdMsg p h (checkHazardStatusTimeout p now st),
      (if p.use_parking_after_stopped = true ∧
          isStopped (checkHazardStatusTimeout p now st) = true
        then GearCommand_PARK else GearCommand_DRIVE), ?_⟩
    unfold onTimer
    rw [hh]
    dsimp only
    rw [if_pos hready, hcheck, hup]
    dsimp only
    rw [hop]
    dsimp only
    rw [hs]
    rfl
  · have hcheck : checkHazardStatusTimeout p now st =
        { st with is_hazard_status_timeout := false } := by
      unfold checkHazardStatusTimeout
      rw [if_neg hst]
    rw [if_neg hst] at heff
    rw [hcheck] at hem
    have hsx : ({ st with is_hazard_status_timeout := false } : EHState).mrm_state_state
        = MrmState_MRM_OPERATING := hs
    have hstopx : isStopped { st with is_hazard_status_timeout := false } = false := hstop
    have hgeb : getCurrentMrmBehavior p h { st with is_hazard_status_timeout := false }
        = MrmState_EMERGENCY_STOP := by
      unfold getCurrentMrmBehavior
      dsimp only
      rw [hb, heff]
      simp [MrmState_NONE, MrmState_COMFORTABLE_STOP, HazardStatus_SINGLE_POINT_FAULT]
    simp only [isEmergency] at hem
    have hup : updateMrmState h { st with is_hazard_status_timeout := false } =
        Except.ok { st with is_hazard_status_timeout := false } := by
      unfold updateMrmState
      rw [if_neg (by rw [hsx]; decide), if_neg (by simp [isEmergency, hem]), if_pos hsx,
        if_neg (by simp [hstopx])]
    have hop : operateMrm p h { st with is_hazard_status_timeout := false } =
        ({ st with
            is_hazard_status_timeout := false
            mrm_state_behavior := MrmState_EMERGENCY_STOP },
          [Event.mrmRequest MrmState_COMFORTABLE_STOP false,
            Event.mrmRequest MrmState_EMERGENCY_STOP true]) := by
      rw [operateMrm_spec]
      dsimp only
      rw [hgeb, hs, hb]
      simp [MrmState_NORMAL, MrmState_MRM_OPERATING, MrmState_NONE,
        MrmState_EMERGENCY_STOP, MrmState_COMFORTABLE_STOP,
        cancelMrmBehavior, callMrmBehavior]
    refine ⟨createHazardCmdMsg p h (checkHazardStatusTimeout p now st),
      (if p.use_parking_after_stopped = true ∧
          isStopped (checkHazardStatusTimeout p now st) = true
        then GearCommand_PARK else GearCommand_DRIVE), ?_⟩
    unfold onTimer
    rw [hh]
    dsimp only
    rw [if_pos hready, hcheck, hup]
    dsimp only
    rw [hop]
    dsimp only
    rw [hs]
    rfl

/-- The moving variant of the MRM_OPERATING/COMFORTABLE_STOP state. -/
def stOperatingCSMoving : EHState :=
  { stOperatingCSStopped with odom_linear_x := 5 }

unseal Rat.sub Rat.add Rat.mul Rat.inv in
/-- Witness for the amended C9 at the concrete moving state: exactly one
cancel of COMFORTABLE_STOP followed by one call of EMERGENCY_STOP. -/
theorem C9_amended_witness :
    ∃ hz g, onTimer paramsA 0 stOperatingCSMoving = Except.ok
      ({ checkHazardStatusTimeout paramsA 0 stOperatingCSMoving with
          mrm_state_behavior := MrmState_EMERGENCY_STOP },
        [Event.pubHazardCmd hz, Event.pubGearCmd g,
          Event.mrmRequest MrmState_COMFORTABLE_STOP false,
          Event.mrmRequest MrmState_EMERGENCY_STOP true,
          Event.pubMrmState MrmState_MRM_OPERATING MrmState_EMERGENCY_STOP]) :=
  C9_amended_escalation_cancel_then_call paramsA stOperatingCSMoving hazardSPF 0
    rfl rfl rfl rfl (by decide) (by decide) (by decide)



/-! Claim C10 -/

/-- The input history used for C10: autonomy mode, emergency stop
availability, a single-point fault report, and two ticks; it contains no
odometry message. -/
def inputsNoOdom : List Input :=
  [Input.controlMode ControlModeReport_AUTONOMOUS,
    Input.emergencyStopStatus MrmBehaviorStatus_AVAILABLE,
    Input.hazardStatus hazardSPF 0,
    Input.timer 0, Input.timer 0]

/-- The state after running inputsNoOdom from the constructor state:
MRM_SUCCEEDED with behavior EMERGENCY_STOP, odometry still at its
default zero. -/
def stNoOdomFinal : EHState :=
  { hazard_status_stamped := some hazardSPF
    stamp_hazard_status := 0
    odom_linear_x := 0
    control_mode := ControlModeReport_AUTONOMOUS
    mrm_comfortable_stop_status := MrmBehaviorStatus_NOT_AVAILABLE
    mrm_emergency_stop_status := MrmBehaviorStatus_AVAILABLE
    mrm_state_state := MrmState_MRM_SUCCEEDED
    mrm_state_behavior := MrmState_EMERGENCY_STOP
    is_hazard_status_timeout := false }

/-- The event trace of those two ticks: PARK is commanded on both even
though no odometry was ever received. -/
def evsNoOdom : List Event :=
  [Event.pubHazardCmd HazardLightsCommand_ENABLE,
    Event.pubGearCmd GearCommand_PARK,
    Event.mrmRequest MrmState_EMERGENCY_STOP true,
    Event.pubMrmState MrmState_MRM_OPERATING MrmState_EMERGENCY_STOP,
    Event.pubHazardCmd HazardLightsCommand_ENABLE,
    Event.pubGearCmd GearCommand_PARK,
    Event.pubMrmState MrmState_MRM_SUCCEEDED MrmState_EMERGENCY_STOP]

unseal Rat.sub Rat.add Rat.mul Rat.inv in
/-- C10: isStopped is true for every velocity strictly below 0.001 m/s,
arbitrarily negative ones included; the constructor state has zero
velocity and already counts as stopped; the readiness gate never looks at
odometry; and without a single odometry message the handler reaches
MRM_SUCCEEDED and commands gear PARK. -/
theorem C10_isStopped_default_and_no_odometry :
    (∀ st : EHState, st.odom_linear_x < (1 : ℚ) / 1000 → isStopped st = true)
    ∧ initState.odom_linear_x = 0
    ∧ isStopped initState = true
    ∧ (∀ (p : Params) (st : EHState) (v : ℚ),
        isDataReady p (onOdometry v st) = isDataReady p st)
    ∧ run paramsA initState inputsNoOdom = Except.ok (stNoOdomFinal, evsNoOdom)
    ∧ stNoOdomFinal.mrm_state_state = MrmState_MRM_SUCCEEDED
    ∧ Event.pubGearCmd GearCommand_PARK ∈ evsNoOdom
    ∧ (∀ v, Input.odometry v ∉ inputsNoOdom) := by
  refine ⟨?_, rfl, by decide, ?_, by rfl, rfl, by decide, ?_⟩
  · intro st hv
    unfold isStopped
    rw [if_pos hv]
  · intro p st v
    unfold isDataReady onOdometry
    rfl
  · intro v
    simp [inputsNoOdom]

unseal Rat.sub Rat.add Rat.mul Rat.inv in
/-- Witness for C10 at the concrete velocity -1000000 m/s: a large
reversing velocity also counts as stopped. -/
theorem C10_witness :
    isStopped { initState with odom_linear_x := -1000000 } = true :=
  C10_isStopped_default_and_no_odometry.1
    { initState with odom_linear_x := -1000000 } (by decide)


end EmergencyHandler
